import Mathlib

/-!
# Verification of the SupermarketAppVMC checkout/refund orchestration core

Shallow embedding of the pricing engine (`CartController.js`, NETS controller),
the refund resolution engine (`RefundController.js`), the refund-credit ledger
(`models/refundCredit.js`) and the order model (`OrderModel.createOrder`).

Monetary values are modelled as exact rationals (`ℚ`); the JavaScript
`Number((x).toFixed(2))` idiom is modelled as round-half-up to 2 decimals,
and `Math.floor` as `Int.floor`.  Database and network calls are modelled by
explicit success/failure flags and explicit state records.
-/

namespace Supermarket

/-- `Number((q).toFixed(2))`: round to 2 decimal places, half away from zero
is irrelevant here — ECMAScript `toFixed` picks the larger candidate on ties,
i.e. round half up, which is `⌊q·100 + 1/2⌋ / 100`. -/
def round2 (q : ℚ) : ℚ := ((⌊q * 100 + 1/2⌋ : ℤ) : ℚ) / 100

/-- `Number.EPSILON` (2⁻⁵²), used by `computeLoyaltyUsage` as a floor nudge. -/
def numEPSILON : ℚ := 1 / 2 ^ 52

/-- One raw cart row as read from the database: `price`, `quantity`,
`discount` (a percentage), each coerced with `Number(x) || 0` in the source. -/
structure RawCartItem where
  price : ℚ
  quantity : ℚ
  discount : ℚ
deriving DecidableEq

/-- `mapCartItems`: per-line discounted price. -/
def discountedPrice (it : RawCartItem) : ℚ := it.price * (1 - it.discount / 100)

/-- `mapCartItems`: per-line total `discountedPrice * quantity`. -/
def lineTotal (it : RawCartItem) : ℚ := discountedPrice it * it.quantity

/-- `mapCartItems`: `cartTotal = cart.reduce((sum, item) => sum + item.lineTotal, 0)`. -/
def cartTotalOf (items : List RawCartItem) : ℚ := (items.map lineTotal).sum

/-- Result of `computeLoyaltyUsage`. -/
structure LoyaltyUsage where
  pointsUsed : ℤ
  discountAmount : ℚ
deriving DecidableEq

/-- `computeLoyaltyUsage(loyaltyRedemption, subtotal)` from `CartController.js`:
the redemption request is `none` when no `loyaltyRedemption` session object
exists, otherwise `some points` (the raw `points` field, floored as in
`Math.floor(Number(loyaltyRedemption.points) || 0)`). -/
def computeLoyaltyUsage (loyaltyRedemption : Option ℚ) (subtotal : ℚ) :
    LoyaltyUsage :=
  match loyaltyRedemption with
  | none => ⟨0, 0⟩
  | some pts =>
    if subtotal ≤ 0 then ⟨0, 0⟩
    else
      let requestedPoints : ℤ := ⌊pts⌋
      if requestedPoints ≤ 0 then ⟨0, 0⟩
      else
        let maxPointsForTotal : ℤ := max 0 (⌊subtotal * 10 + numEPSILON⌋ - 1)
        let applicablePoints : ℤ := min requestedPoints maxPointsForTotal
        if applicablePoints = 0 then ⟨0, 0⟩
        else ⟨applicablePoints, round2 ((applicablePoints : ℚ) / 10)⟩

/-- A row of `refund_credits` as returned by `getLatestAvailableByUser`. -/
structure CreditInfo where
  id : ℕ
  amount : ℚ
deriving DecidableEq

/-- `credit && Number(credit.amount) ? Number(credit.amount) : 0` — the JS
truthiness test on `amount` maps `0` (and a missing credit) to `0`. -/
def availableCreditOf (credit : Option CreditInfo) : ℚ :=
  match credit with
  | some c => if c.amount ≠ 0 then c.amount else 0
  | none => 0

/-- The checkout computation produced by `computeCheckoutState`. -/
structure CheckoutState where
  cartTotal : ℚ
  discountPercent : ℚ
  discountedTotal : ℚ
  discountAmount : ℚ
  loyaltyDiscount : ℚ
  loyaltyPoints : ℤ
  refundCreditAmount : ℚ
  refundCreditId : Option ℕ
  payableTotal : ℚ
deriving DecidableEq

/-- `computeCheckoutState` from `CartController.js` (lines 89–140), as a pure
function of the cart rows, the user's prior-order count, the optional loyalty
redemption request, and the latest available refund credit. -/
def computeCheckoutState (items : List RawCartItem) (ordersCount : ℕ)
    (loyaltyRedemption : Option ℚ) (credit : Option CreditInfo) :
    CheckoutState :=
  let cartTotal := cartTotalOf items
  let discountEligible := ordersCount = 0
  let discountPercent : ℚ := if discountEligible then 25 else 0
  let discountedTotal := round2 (cartTotal * (1 - discountPercent / 100))
  let firstOrderDiscount := max 0 (round2 (cartTotal - discountedTotal))
  let loyaltyUsage := computeLoyaltyUsage loyaltyRedemption discountedTotal
  let maxAfterLoyalty := max 0 (discountedTotal - loyaltyUsage.discountAmount)
  let availableCredit := availableCreditOf credit
  let refundCreditAmount := round2 (min maxAfterLoyalty (max 0 availableCredit))
  let payableTotal := round2 (max 0 (maxAfterLoyalty - refundCreditAmount))
  { cartTotal := cartTotal
    discountPercent := discountPercent
    discountedTotal := discountedTotal
    discountAmount := firstOrderDiscount
    loyaltyDiscount := loyaltyUsage.discountAmount
    loyaltyPoints := loyaltyUsage.pointsUsed
    refundCreditAmount := refundCreditAmount
    refundCreditId := credit.map CreditInfo.id
    payableTotal := payableTotal }

/-- The totals record produced by the NETS controller's `computeTotals`. -/
structure NetsTotals where
  cartTotal : ℚ
  discountPercent : ℚ
  discountedTotal : ℚ
  refundCreditAmount : ℚ
  refundCreditId : Option ℕ
  payableTotal : ℚ
deriving DecidableEq

/-- `computeTotals` from the NETS controller (`src/unnamed/part_000`,
lines 29–60).  Unlike `computeCheckoutState`, the no-discount branch leaves
`discountedTotal` equal to the raw `cartTotal` (no rounding), and no loyalty
redemption is consulted. -/
def computeTotals (items : List RawCartItem) (ordersCount : ℕ)
    (credit : Option CreditInfo) : NetsTotals :=
  let cartTotal := cartTotalOf items
  let discountEligible := ordersCount = 0
  let discountPercent : ℚ := if discountEligible then 25 else 0
  let discountedTotal :=
    if 0 < discountPercent then round2 (cartTotal * (75/100)) else cartTotal
  let availableCredit := availableCreditOf credit
  let refundCreditAmount := round2 (min discountedTotal (max 0 availableCredit))
  let payableTotal := round2 (max 0 (discountedTotal - refundCreditAmount))
  { cartTotal := cartTotal
    discountPercent := discountPercent
    discountedTotal := discountedTotal
    refundCreditAmount := refundCreditAmount
    refundCreditId := credit.map CreditInfo.id
    payableTotal := payableTotal }

/-- JS `String.prototype.toLowerCase()` on one ASCII character. -/
def jsToLowerChar (c : Char) : Char :=
  if 'A' ≤ c ∧ c ≤ 'Z' then Char.ofNat (c.toNat + 32) else c

/-- JS `String.prototype.toLowerCase()` (ASCII range). -/
def jsToLower (s : String) : String := ⟨s.data.map jsToLowerChar⟩

/-- JS `String.prototype.trim()`: strip leading and trailing whitespace. -/
def jsTrim (s : String) : String :=
  ⟨((s.data.dropWhile Char.isWhitespace).reverse.dropWhile
      Char.isWhitespace).reverse⟩

/-- JS `String.prototype.startsWith(pre)`. -/
def jsStartsWith (s pre : String) : Bool := pre.data.isPrefixOf s.data

/-- The order-status transition computed inside `RefundController.resolveReport`
(`src/controllers/RefundController.js`, lines 221–237): `status` is the
resolution status, `orderStatus` the current status of the originating order
(`String(report.orderStatus || '')`); `none` means no transition is applied. -/
def orderStatusAfterResolve (status : String) (orderStatus : String) :
    Option String :=
  let currentStatus := jsToLower orderStatus
  let deliveryConfirmed := currentStatus = "completed"
  if (status = "approved_full" ∨ status = "approved_partial") ∧
      ¬ deliveryConfirmed then some "cancelled"
  else if status = "approved_full" then some "refund_full"
  else if status = "approved_partial" then some "refund_partial"
  else if status = "rejected" then some "refund_rejected"
  else none

/-- `targetAmount = status === 'approved_full' ? (report.orderTotal || amount || 0)
: amount` from `resolveReport`; a missing (`null`) `orderTotal` is modelled as
`0`, which is falsy exactly like `null`. -/
def resolveTargetAmount (status : String) (orderTotal : ℚ) (amount : ℚ) : ℚ :=
  if status = "approved_full" then
    (if orderTotal ≠ 0 then orderTotal else if amount ≠ 0 then amount else 0)
  else amount

/-- The order-status transition plus the loyalty bonus actually granted by
`resolveReport` (lines 237–262): the bonus block runs only when an order-status
transition was derived, computes
`bonus = Math.floor(Math.floor(orderTotal * 10) * percent)` and grants it only
when `bonus > 0` and the user holds a membership row. -/
def resolveReportEffects (status : String) (orderCurrentStatus : String)
    (orderTotal : ℚ) (hasMembership : Bool) : Option String × ℤ :=
  match orderStatusAfterResolve status orderCurrentStatus with
  | none => (none, 0)
  | some s =>
    let percent : ℚ :=
      if status = "approved_full" then 25/100
      else if status = "approved_partial" then 10/100
      else 0
    let basePoints : ℤ := ⌊orderTotal * 10⌋
    let bonus : ℤ := ⌊(basePoints : ℚ) * percent⌋
    (some s, if bonus ≤ 0 then 0 else if hasMembership then bonus else 0)

/-- Status of a `refund_credits` row. -/
inductive CreditStatus where
  | available
  | used
deriving DecidableEq

/-- A `refund_credits` row as touched by `RefundCreditModel.markUsed`. -/
structure CreditRow where
  status : CreditStatus
  usedOrderId : Option ℕ
deriving DecidableEq

/-- `RefundCreditModel.markUsed(id, orderId)`
(`src/models/refundCredit.js`, lines 28–35):
`UPDATE refund_credits SET status='used', usedOrderId=? WHERE id=? AND
status='available'`.  Returns the updated row together with the number of
affected rows; `orderId || null` maps an id of `0` to `NULL`. -/
def markUsed (row : CreditRow) (orderId : ℕ) : CreditRow × ℕ :=
  if row.status = CreditStatus.available then
    ({ status := CreditStatus.used
       usedOrderId := if orderId = 0 then none else some orderId }, 1)
  else (row, 0)

/-- JS `Number()` on an already-trimmed, lowercased string, modelled for plain
decimal literals: the empty string parses as `0`, `[sign]digits[.digits]` as
its value, and everything else (including words such as `"pending"`) as NaN,
i.e. `none`. -/
def jsToNumber (s : String) : Option ℚ :=
  if s = "" then some 0
  else
    let signed : ℚ × List Char :=
      match s.data with
      | '-' :: cs => (-1, cs)
      | '+' :: cs => (1, cs)
      | cs => (1, cs)
    let sign := signed.1
    let rest := signed.2
    let intPart := rest.takeWhile Char.isDigit
    let after := rest.dropWhile Char.isDigit
    let digitsVal : List Char → ℕ :=
      fun l => l.foldl (fun a c => a * 10 + (c.toNat - 48)) 0
    match after with
    | [] => if intPart.isEmpty then none else some (sign * digitsVal intPart)
    | '.' :: fracs =>
        if fracs.all Char.isDigit ∧ ¬ (intPart.isEmpty ∧ fracs.isEmpty) then
          some (sign * ((digitsVal intPart : ℚ) +
            (digitsVal fracs : ℚ) / (10 ^ fracs.length)))
        else none
    | _ => none

/-- The word fallback at the end of `normalizeStatus`. -/
def normalizeStatusWords (value : String) : String :=
  if value = "1" ∨ value = "success" ∨ value = "completed" ∨ value = "paid" ∨
      value = "successful" ∨ value = "approved" ∨ value = "authorised" ∨
      value = "authorized" ∨ value = "settled" then "success"
  else if value = "0" ∨ value = "pending" ∨ value = "processing" ∨
      value = "" ∨ value = "null" ∨ value = "undefined" then "pending"
  else "failed"

/-- `normalizeStatus(rawStatus, responseCode)` from the NETS controller
(`src/unnamed/part_000`, lines 67–83): `none` models a `null`/`undefined`
argument. -/
def normalizeStatus (rawStatus : Option String) (responseCode : Option String) :
    String :=
  let value := match rawStatus with
    | some s => jsToLower (jsTrim s)
    | none => ""
  let code := match responseCode with
    | some s => jsTrim s
    | none => ""
  if code = "00" ∨ jsStartsWith code "00" then "success"
  else
    match jsToNumber value with
    | some numeric =>
        if 0 < numeric then "success"
        else if numeric = 0 then "pending"
        else normalizeStatusWords value
    | none => normalizeStatusWords value

/-- Outcome of a checkout flow, projected onto the two facts the claims are
about: whether the order row was created and whether the cart was cleared. -/
structure FlowOutcome where
  orderCreated : Bool
  cartCleared : Bool
deriving DecidableEq

/-- Input to `NetsController.confirmPayment` (`src/unnamed/part_000`,
lines 96–250), abstracting each external call to a success flag:
`sessionValid` is `txn && txn.txnRetrievalRef`, `statusQueryOk` is whether
`NetsService.getPaymentStatus` resolved, `status` is the `normalizeStatus`
result, `elapsedMs` is `Date.now() - txn.createdAt` (0 when `createdAt` is
absent), and `stockDecrementOk` is whether all per-line
`ProductModel.decrementQuantity` callbacks returned without error. -/
structure NetsConfirmInput where
  sessionValid : Bool
  statusQueryOk : Bool
  status : String
  elapsedMs : ℤ
  cartEmpty : Bool
  createOrderOk : Bool
  stockDecrementOk : Bool
deriving DecidableEq

/-- The control flow of `NetsController.confirmPayment`.  The early guard
aborts on a non-success status only while `elapsedMs < optimisticAfterMs`
(20 000 ms); past that window the flow proceeds to create the order.  After
`OrderModel.createOrder` succeeds, the cart is cleared inside the
`Promise.all(...).then(...)` branch, so only when every stock decrement
succeeded (the refund-credit `markUsed` task swallows its own errors and
always resolves); a stock failure lands in `.catch` without clearing. -/
def netsConfirmFlow (i : NetsConfirmInput) : FlowOutcome :=
  if ¬ i.sessionValid then ⟨false, false⟩
  else if ¬ i.statusQueryOk then ⟨false, false⟩
  else if i.status ≠ "success" ∧ i.elapsedMs < 20000 then ⟨false, false⟩
  else if i.cartEmpty then ⟨false, false⟩
  else if ¬ i.createOrderOk then ⟨false, false⟩
  else if i.stockDecrementOk then ⟨true, true⟩
  else ⟨true, false⟩

/-- Input to `persistOrder` (`CartController.js`, lines 166–302), the shared
order finalizer of the card, PayPal and Stripe flows, abstracting each
side-effect to a success flag. -/
structure PersistOrderInput where
  createOrderOk : Bool
  fetchOrderOk : Bool
  stockOk : Bool
  membershipOk : Bool
  creditOk : Bool
deriving DecidableEq

/-- The control flow of `persistOrder`: once `OrderModel.createOrder`
succeeds, `finalize` always runs (a failed `getOrderById` merely substitutes a
fallback order object), and `Promise.all([...]).catch(...).finally(...)`
clears the cart whatever the stock / membership / credit outcomes were. -/
def persistOrderFlow (i : PersistOrderInput) : FlowOutcome :=
  if ¬ i.createOrderOk then ⟨false, false⟩
  else ⟨true, true⟩

/-- An `orders` row as inserted by `OrderModel.createOrder`. -/
structure OrderRow where
  id : ℕ
  userId : ℕ
  totalAmount : ℚ
  discountPercent : ℚ
  status : String
deriving DecidableEq

/-- An `order_items` row. -/
structure OrderItemRow where
  orderId : ℕ
  productId : ℕ
  quantity : ℤ
  price : ℚ
deriving DecidableEq

/-- One element of the `items` argument of `createOrder`. -/
structure OrderItemInput where
  productId : ℕ
  quantity : ℤ
  price : ℚ
deriving DecidableEq

/-- The `orderData` argument of `createOrder`; fields not relevant to the
claims (transaction ids, payment method) are omitted. -/
structure OrderData where
  userId : ℕ
  totalAmount : ℚ
  discountPercent : ℚ
  status : String
deriving DecidableEq

/-- The orders database visible to `OrderModel.createOrder`: an
auto-increment counter plus the two tables. -/
structure OrdersDb where
  nextId : ℕ
  orders : List OrderRow
  orderItems : List OrderItemRow
deriving DecidableEq

/-- The `orders` row built by the `INSERT INTO orders` statement:
`discountPercent || 0` and `status || 'pending'` supply the defaults. -/
def orderRowOf (id : ℕ) (d : OrderData) : OrderRow :=
  { id := id
    userId := d.userId
    totalAmount := d.totalAmount
    discountPercent := d.discountPercent
    status := if d.status = "" then "pending" else d.status }

/-- `OrderModel.createOrder(orderData, items, cb)` (`src/unnamed/part_002`,
lines 94–157) on its success path: `items` is `none` when the caller passed a
non-array, mirroring `Array.isArray(items) ? items : []`; an empty
`safeItems` list skips the `order_items` insert and commits the order row
alone.  Returns the new database state and the `orderId` handed to the
callback. -/
def createOrder (db : OrdersDb) (orderData : OrderData)
    (items : Option (List OrderItemInput)) : OrdersDb × ℕ :=
  let safeItems := items.getD []
  let orderId := db.nextId
  let newItems := safeItems.map
    (fun it => OrderItemRow.mk orderId it.productId it.quantity it.price)
  ({ nextId := orderId + 1
     orders := db.orders ++ [orderRowOf orderId orderData]
     orderItems := db.orderItems ++ newItems }, orderId)

section Lemmas

lemma round2_nonneg {q : ℚ} (hq : 0 ≤ q) : 0 ≤ round2 q := by
  unfold round2
  have h : (0 : ℤ) ≤ ⌊q * 100 + 1/2⌋ := by
    apply Int.floor_nonneg.mpr
    nlinarith
  positivity

lemma round2_mono {a b : ℚ} (h : a ≤ b) : round2 a ≤ round2 b := by
  unfold round2
  have : ⌊a * 100 + 1/2⌋ ≤ ⌊b * 100 + 1/2⌋ := by
    apply Int.floor_mono
    nlinarith
  have hcast : ((⌊a * 100 + 1/2⌋ : ℤ) : ℚ) ≤ ((⌊b * 100 + 1/2⌋ : ℤ) : ℚ) := by
    exact_mod_cast this
  linarith

lemma round2_intCast_div (m : ℤ) : round2 ((m : ℚ) / 100) = (m : ℚ) / 100 := by
  unfold round2
  have h1 : (m : ℚ) / 100 * 100 + 1/2 = (m : ℚ) + 1/2 := by ring
  rw [h1, add_comm]
  have h2 : ⌊(1/2 : ℚ) + m⌋ = ⌊(1/2 : ℚ)⌋ + m := Int.floor_add_int _ m
  have h3 : ⌊(1/2 : ℚ)⌋ = 0 := by norm_num [Int.floor_eq_iff]
  rw [h2, h3, zero_add]

lemma round2_idem (q : ℚ) : round2 (round2 q) = round2 q :=
  round2_intCast_div _

lemma round2_tenths (k : ℤ) : round2 ((k : ℚ) / 10) = (k : ℚ) / 10 := by
  have h : ((k : ℚ) / 10) = ((10 * k : ℤ) : ℚ) / 100 := by push_cast; ring
  rw [h, round2_intCast_div]

lemma round2_zero : round2 0 = 0 := by
  have := round2_intCast_div 0
  simpa using this

lemma round2_le_round2_self {x d : ℚ} (hx : x ≤ round2 d) :
    round2 x ≤ round2 d := by
  calc round2 x ≤ round2 (round2 d) := round2_mono hx
    _ = round2 d := round2_idem d

lemma floor_tenth_add_eps (m : ℤ) :
    ⌊(m : ℚ) / 10 + numEPSILON⌋ = ⌊(m : ℚ) / 10⌋ := by
  set a : ℤ := ⌊(m : ℚ) / 10⌋ with ha
  have hle : (a : ℚ) ≤ (m : ℚ) / 10 := Int.floor_le _
  have hlt : (m : ℚ) / 10 < a + 1 := Int.lt_floor_add_one _
  have hm : (m : ℚ) < (10 * a + 10 : ℤ) := by push_cast; linarith
  have hmz : m < 10 * a + 10 := by exact_mod_cast hm
  have hmz9 : m ≤ 10 * a + 9 := by omega
  have hq9 : (m : ℚ) ≤ 10 * a + 9 := by exact_mod_cast hmz9
  have heps : numEPSILON < 1/10 := by norm_num [numEPSILON]
  have hepsp : 0 ≤ numEPSILON := by norm_num [numEPSILON]
  rw [Int.floor_eq_iff]
  constructor
  · linarith
  · linarith

lemma min_max_zero (a b : ℚ) : min (max 0 a) (max 0 b) = max 0 (min a b) := by
  rcases le_total a 0 with ha | ha <;> rcases le_total b 0 with hb | hb <;>
    rcases le_total a b with hab | hab <;>
    simp [min_def, max_def] <;> split_ifs <;> linarith

lemma computeLoyaltyUsage_pointsUsed_nonneg (lr : Option ℚ) (subtotal : ℚ) :
    0 ≤ (computeLoyaltyUsage lr subtotal).pointsUsed := by
  unfold computeLoyaltyUsage
  rcases lr with _ | pts
  · simp
  · simp only
    split_ifs with h1 h2 h3
    · simp
    · simp
    · simp
    · simp only
      have hreq : (0 : ℤ) < ⌊pts⌋ := by omega
      have : (0 : ℤ) ≤ min ⌊pts⌋ (max 0 (⌊subtotal * 10 + numEPSILON⌋ - 1)) := by
        apply le_min <;> omega
      exact this

lemma computeLoyaltyUsage_discount_nonneg (lr : Option ℚ) (subtotal : ℚ) :
    0 ≤ (computeLoyaltyUsage lr subtotal).discountAmount := by
  unfold computeLoyaltyUsage
  rcases lr with _ | pts
  · simp
  · simp only
    split_ifs with h1 h2 h3
    · simp
    · simp
    · simp
    · simp only
      apply round2_nonneg
      have hreq : (0 : ℤ) < ⌊pts⌋ := by omega
      have hmin : (0 : ℤ) ≤ min ⌊pts⌋ (max 0 (⌊subtotal * 10 + numEPSILON⌋ - 1)) := by
        apply le_min <;> omega
      have : (0 : ℚ) ≤ ((min ⌊pts⌋ (max 0 (⌊subtotal * 10 + numEPSILON⌋ - 1)) : ℤ) : ℚ) := by
        exact_mod_cast hmin
      positivity

lemma computeCheckoutState_discountedTotal (items : List RawCartItem)
    (n : ℕ) (lr : Option ℚ) (cr : Option CreditInfo) :
    (computeCheckoutState items n lr cr).discountedTotal =
      round2 (cartTotalOf items *
        (1 - (if n = 0 then (25 : ℚ) else 0) / 100)) := rfl

lemma computeCheckoutState_loyaltyDiscount (items : List RawCartItem)
    (n : ℕ) (lr : Option ℚ) (cr : Option CreditInfo) :
    (computeCheckoutState items n lr cr).loyaltyDiscount =
      (computeLoyaltyUsage lr
        (computeCheckoutState items n lr cr).discountedTotal).discountAmount :=
  rfl

lemma computeCheckoutState_refundCreditAmount (items : List RawCartItem)
    (n : ℕ) (lr : Option ℚ) (cr : Option CreditInfo) :
    (computeCheckoutState items n lr cr).refundCreditAmount =
      round2 (min
        (max 0 ((computeCheckoutState items n lr cr).discountedTotal -
          (computeCheckoutState items n lr cr).loyaltyDiscount))
        (max 0 (availableCreditOf cr))) := rfl

lemma computeCheckoutState_payableTotal (items : List RawCartItem)
    (n : ℕ) (lr : Option ℚ) (cr : Option CreditInfo) :
    (computeCheckoutState items n lr cr).payableTotal =
      round2 (max 0
        (max 0 ((computeCheckoutState items n lr cr).discountedTotal -
          (computeCheckoutState items n lr cr).loyaltyDiscount) -
          (computeCheckoutState items n lr cr).refundCreditAmount)) := rfl

lemma computeCheckoutState_discountPercent (items : List RawCartItem)
    (n : ℕ) (lr : Option ℚ) (cr : Option CreditInfo) :
    (computeCheckoutState items n lr cr).discountPercent =
      (if n = 0 then (25 : ℚ) else 0) := rfl

/-- The arithmetic heart of the checkout invariant, over plain rationals:
`D` the (already 2-decimal) discounted total, `L` the loyalty discount,
`A` the available credit amount. -/
lemma payable_core (D L A : ℚ) (hD0 : 0 ≤ D) (hDr : round2 D = D)
    (hL : 0 ≤ L) :
    round2 (min (max 0 (D - L)) (max 0 A)) =
      round2 (max 0 (min A (D - L))) ∧
    round2 (max 0 (max 0 (D - L) - round2 (min (max 0 (D - L)) (max 0 A)))) =
      round2 (max 0 (D - L - round2 (min (max 0 (D - L)) (max 0 A)))) ∧
    0 ≤ round2 (max 0 (max 0 (D - L) -
      round2 (min (max 0 (D - L)) (max 0 A)))) ∧
    round2 (max 0 (max 0 (D - L) -
      round2 (min (max 0 (D - L)) (max 0 A)))) ≤ D := by
  have hRfor : min (max 0 (D - L)) (max 0 A) = max 0 (min A (D - L)) := by
    rw [min_max_zero, min_comm]
  have hRnn : 0 ≤ round2 (min (max 0 (D - L)) (max 0 A)) := by
    apply round2_nonneg
    exact le_min (le_max_left 0 _) (le_max_left 0 _)
  refine ⟨by rw [hRfor], ?_, ?_, ?_⟩
  · rcases le_total (D - L) 0 with h | h
    · have hM : max 0 (D - L) = 0 := max_eq_left h
      rw [hM]
      have hR0 : round2 (min (0 : ℚ) (max 0 A)) = 0 := by
        rw [min_eq_left (le_max_left 0 A), round2_zero]
      rw [hR0]
      simp only [sub_zero]
      rw [max_self, max_eq_left h]
    · have hM : max 0 (D - L) = D - L := max_eq_right h
      rw [hM]
  · exact round2_nonneg (le_max_left 0 _)
  · rw [← hDr]
    apply round2_le_round2_self
    rw [hDr]
    have hMD : max 0 (D - L) ≤ D := by
      apply max_le hD0
      linarith
    apply max_le hD0
    linarith

/-- C1 — For every checkout computation, `payableTotal` equals
`max(0, discountedTotal − loyaltyDiscountAmount − refundCreditAmount)` rounded
to 2 decimals, `refundCreditAmount` equals
`min(availableCreditAmount, discountedTotal − loyaltyDiscountAmount)` clamped
`≥ 0` and rounded to 2 decimals, and consequently `payableTotal` is never
negative and never exceeds `discountedTotal`.  (Cart totals are nonnegative
for the data model's carts: positive quantities, nonnegative prices,
discounts below 100 %.) -/
theorem C1_payable_invariant (items : List RawCartItem) (n : ℕ)
    (lr : Option ℚ) (cr : Option CreditInfo)
    (hcart : 0 ≤ cartTotalOf items) :
    (computeCheckoutState items n lr cr).refundCreditAmount =
      round2 (max 0 (min (availableCreditOf cr)
        ((computeCheckoutState items n lr cr).discountedTotal -
         (computeCheckoutState items n lr cr).loyaltyDiscount))) ∧
    (computeCheckoutState items n lr cr).payableTotal =
      round2 (max 0 ((computeCheckoutState items n lr cr).discountedTotal -
        (computeCheckoutState items n lr cr).loyaltyDiscount -
        (computeCheckoutState items n lr cr).refundCreditAmount)) ∧
    0 ≤ (computeCheckoutState items n lr cr).payableTotal ∧
    (computeCheckoutState items n lr cr).payableTotal ≤
      (computeCheckoutState items n lr cr).discountedTotal := by
  have hD0 : 0 ≤ (computeCheckoutState items n lr cr).discountedTotal := by
    rw [computeCheckoutState_discountedTotal]
    apply round2_nonneg
    have hf : 0 ≤ 1 - (if n = 0 then (25 : ℚ) else 0) / 100 := by
      split_ifs <;> norm_num
    positivity
  have hDr : round2 (computeCheckoutState items n lr cr).discountedTotal =
      (computeCheckoutState items n lr cr).discountedTotal := by
    rw [computeCheckoutState_discountedTotal]
    exact round2_idem _
  have hL : 0 ≤ (computeCheckoutState items n lr cr).loyaltyDiscount := by
    rw [computeCheckoutState_loyaltyDiscount]
    exact computeLoyaltyUsage_discount_nonneg _ _
  obtain ⟨h1, h2, h3, h4⟩ :=
    payable_core (computeCheckoutState items n lr cr).discountedTotal
      (computeCheckoutState items n lr cr).loyaltyDiscount
      (availableCreditOf cr) hD0 hDr hL
  refine ⟨?_, ?_, ?_, ?_⟩
  · rw [computeCheckoutState_refundCreditAmount, h1]
  · rw [computeCheckoutState_payableTotal,
      computeCheckoutState_refundCreditAmount, h2]
  · rw [computeCheckoutState_payableTotal,
      computeCheckoutState_refundCreditAmount]
    exact h3
  · rw [computeCheckoutState_payableTotal,
      computeCheckoutState_refundCreditAmount]
    exact h4

/-- Witness for C1 at a concrete checkout: one cart line of price 20,
quantity 1, no line discount, first order, a 200-point redemption request and
an available credit of 3. -/
theorem C1_payable_invariant_witness :
    (computeCheckoutState [⟨20, 1, 0⟩] 0 (some 200) (some ⟨7, 3⟩)).refundCreditAmount =
      round2 (max 0 (min (availableCreditOf (some ⟨7, 3⟩))
        ((computeCheckoutState [⟨20, 1, 0⟩] 0 (some 200) (some ⟨7, 3⟩)).discountedTotal -
         (computeCheckoutState [⟨20, 1, 0⟩] 0 (some 200) (some ⟨7, 3⟩)).loyaltyDiscount))) ∧
    (computeCheckoutState [⟨20, 1, 0⟩] 0 (some 200) (some ⟨7, 3⟩)).payableTotal =
      round2 (max 0 ((computeCheckoutState [⟨20, 1, 0⟩] 0 (some 200) (some ⟨7, 3⟩)).discountedTotal -
        (computeCheckoutState [⟨20, 1, 0⟩] 0 (some 200) (some ⟨7, 3⟩)).loyaltyDiscount -
        (computeCheckoutState [⟨20, 1, 0⟩] 0 (some 200) (some ⟨7, 3⟩)).refundCreditAmount)) ∧
    0 ≤ (computeCheckoutState [⟨20, 1, 0⟩] 0 (some 200) (some ⟨7, 3⟩)).payableTotal ∧
    (computeCheckoutState [⟨20, 1, 0⟩] 0 (some 200) (some ⟨7, 3⟩)).payableTotal ≤
      (computeCheckoutState [⟨20, 1, 0⟩] 0 (some 200) (some ⟨7, 3⟩)).discountedTotal :=
  C1_payable_invariant [⟨20, 1, 0⟩] 0 (some 200) (some ⟨7, 3⟩)
    (by norm_num [cartTotalOf, lineTotal, discountedPrice])

lemma floor_mul_ten_add_eps {D : ℚ} (hDr : round2 D = D) :
    ⌊D * 10 + numEPSILON⌋ = ⌊D * 10⌋ := by
  have hD : D = ((⌊D * 100 + 1/2⌋ : ℤ) : ℚ) / 100 := by
    conv_lhs => rw [← hDr]
    rfl
  have h10 : D * 10 = ((⌊D * 100 + 1/2⌋ : ℤ) : ℚ) / 10 := by
    conv_lhs => rw [hD]
    ring
  rw [h10, floor_tenth_add_eps]

/-- C2 — For every loyalty redemption request over a positive (2-decimal)
`discountedTotal`, `pointsUsed` is the requested points clamped into
`[0, ⌊discountedTotal·10⌋ − 1]`, `discountAmount` is `pointsUsed/10` rounded
to 2 decimals, and the loyalty discount alone can never bring the total to
zero; in particular with `discountedTotal = 15.00` a 200-point request is
clamped to 149 points ($14.90) leaving `payableTotal = 0.10`. -/
theorem C2_loyalty_clamp (pts D : ℚ) (hD : 0 < D) (hDr : round2 D = D)
    (hpts : 0 < ⌊pts⌋) :
    (computeLoyaltyUsage (some pts) D).pointsUsed =
      min ⌊pts⌋ (max 0 (⌊D * 10⌋ - 1)) ∧
    (computeLoyaltyUsage (some pts) D).discountAmount =
      round2 (((computeLoyaltyUsage (some pts) D).pointsUsed : ℚ) / 10) ∧
    0 < D - (computeLoyaltyUsage (some pts) D).discountAmount ∧
    computeLoyaltyUsage (some 200) 15 = ⟨149, 149/10⟩ ∧
    (computeCheckoutState [⟨20, 1, 0⟩] 0 (some 200) none).discountedTotal = 15 ∧
    (computeCheckoutState [⟨20, 1, 0⟩] 0 (some 200) none).loyaltyPoints = 149 ∧
    (computeCheckoutState [⟨20, 1, 0⟩] 0 (some 200) none).payableTotal = 1/10 := by
  have heps := floor_mul_ten_add_eps hDr
  have hfl : (0 : ℤ) ≤ ⌊D * 10⌋ := by
    apply Int.floor_nonneg.mpr
    positivity
  have hmain : (computeLoyaltyUsage (some pts) D).pointsUsed =
        min ⌊pts⌋ (max 0 (⌊D * 10⌋ - 1)) ∧
      (computeLoyaltyUsage (some pts) D).discountAmount =
        round2 (((computeLoyaltyUsage (some pts) D).pointsUsed : ℚ) / 10) ∧
      0 < D - (computeLoyaltyUsage (some pts) D).discountAmount := by
    unfold computeLoyaltyUsage
    simp only
    split_ifs with h1 h2 h3
    · exact absurd h1 (not_le.mpr hD)
    · omega
    · -- applicablePoints = 0
      rw [heps] at h3
      refine ⟨?_, ?_, by simpa using hD⟩
      · show (0 : ℤ) = min ⌊pts⌋ (max 0 (⌊D * 10⌋ - 1))
        omega
      · show (0 : ℚ) = round2 ((((0 : ℤ) : ℚ)) / 10)
        rw [round2_tenths]
        norm_num
    · -- main branch
      rw [heps] at h3 ⊢
      set p : ℤ := min ⌊pts⌋ (max 0 (⌊D * 10⌋ - 1)) with hp
      have hp0 : 0 ≤ p := le_min (by omega) (by omega)
      have hp1 : 1 ≤ p := by omega
      have hple : p ≤ max 0 (⌊D * 10⌋ - 1) := min_le_right _ _
      have hmax : max 0 (⌊D * 10⌋ - 1) = ⌊D * 10⌋ - 1 := by omega
      have hpfl : p ≤ ⌊D * 10⌋ - 1 := by omega
      have hfloorle : ((⌊D * 10⌋ : ℤ) : ℚ) ≤ D * 10 := Int.floor_le _
      have hpq : (p : ℚ) ≤ D * 10 - 1 := by
        have hc : ((p : ℤ) : ℚ) ≤ ((⌊D * 10⌋ - 1 : ℤ) : ℚ) := by
          exact_mod_cast hpfl
        push_cast at hc
        linarith
      refine ⟨rfl, rfl, ?_⟩
      show 0 < D - round2 ((p : ℚ) / 10)
      rw [round2_tenths]
      linarith
  refine ⟨hmain.1, hmain.2.1, hmain.2.2, ?_, ?_, ?_, ?_⟩
  · norm_num [computeLoyaltyUsage, numEPSILON, round2]
  · norm_num [computeCheckoutState, computeLoyaltyUsage, cartTotalOf, lineTotal,
      discountedPrice, availableCreditOf, round2, numEPSILON]
  · norm_num [computeCheckoutState, computeLoyaltyUsage, cartTotalOf, lineTotal,
      discountedPrice, availableCreditOf, round2, numEPSILON]
  · norm_num [computeCheckoutState, computeLoyaltyUsage, cartTotalOf, lineTotal,
      discountedPrice, availableCreditOf, round2, numEPSILON]

/-- Witness for C2: `discountedTotal = 15`, 200 points requested. -/
theorem C2_loyalty_clamp_witness :
    (0 : ℚ) < 15 ∧ round2 15 = 15 ∧ (0 : ℤ) < ⌊(200 : ℚ)⌋ ∧
    (computeLoyaltyUsage (some 200) 15).pointsUsed =
      min ⌊(200 : ℚ)⌋ (max 0 (⌊(15 : ℚ) * 10⌋ - 1)) :=
  ⟨by norm_num, by norm_num [round2], by norm_num,
    (C2_loyalty_clamp 200 15 (by norm_num) (by norm_num [round2])
      (by norm_num)).1⟩

lemma computeTotals_discountPercent (items : List RawCartItem) (n : ℕ)
    (cr : Option CreditInfo) :
    (computeTotals items n cr).discountPercent =
      (if n = 0 then (25 : ℚ) else 0) := rfl

lemma computeTotals_discountedTotal (items : List RawCartItem) (n : ℕ)
    (cr : Option CreditInfo) :
    (computeTotals items n cr).discountedTotal =
      (if 0 < (if n = 0 then (25 : ℚ) else 0) then
        round2 (cartTotalOf items * (75/100)) else cartTotalOf items) := rfl

/-- C3, counterexample — the claim says that with at least one prior order
`discountedTotal = cartTotal`; but `computeCheckoutState` rounds the total in
the no-discount branch too: a cart of one unit at price 9.99 with a 15 % line
discount has `cartTotal = 8.4915`, while `discountedTotal = 8.49`. -/
theorem C3_counterexample :
    (computeCheckoutState [⟨999/100, 1, 15⟩] 1 none none).discountPercent = 0 ∧
    (computeCheckoutState [⟨999/100, 1, 15⟩] 1 none none).discountedTotal ≠
      cartTotalOf [⟨999/100, 1, 15⟩] := by
  constructor
  · norm_num [computeCheckoutState]
  · norm_num [computeCheckoutState, computeLoyaltyUsage, cartTotalOf, lineTotal,
      discountedPrice, availableCreditOf, round2, numEPSILON]

/-- C3, amended — `discountPercent` is 25 with zero prior orders and 0
otherwise, and `discountedTotal = round2(cartTotal × 0.75)` on the first
order; with prior orders, `computeCheckoutState` (card/PayPal/Stripe path)
produces `round2(cartTotal)` while the NETS `computeTotals` leaves
`discountedTotal` exactly equal to `cartTotal`. -/
theorem C3_first_order_discount (items : List RawCartItem) (n : ℕ)
    (lr : Option ℚ) (cr : Option CreditInfo) :
    (n = 0 →
      (computeCheckoutState items n lr cr).discountPercent = 25 ∧
      (computeCheckoutState items n lr cr).discountedTotal =
        round2 (cartTotalOf items * (75/100)) ∧
      (computeTotals items n cr).discountPercent = 25 ∧
      (computeTotals items n cr).discountedTotal =
        round2 (cartTotalOf items * (75/100))) ∧
    (n ≠ 0 →
      (computeCheckoutState items n lr cr).discountPercent = 0 ∧
      (computeCheckoutState items n lr cr).discountedTotal =
        round2 (cartTotalOf items) ∧
      (computeTotals items n cr).discountPercent = 0 ∧
      (computeTotals items n cr).discountedTotal = cartTotalOf items) := by
  constructor
  · intro h
    subst h
    rw [computeCheckoutState_discountPercent, computeCheckoutState_discountedTotal,
      computeTotals_discountPercent, computeTotals_discountedTotal]
    norm_num
  · intro h
    rw [computeCheckoutState_discountPercent, computeCheckoutState_discountedTotal,
      computeTotals_discountPercent, computeTotals_discountedTotal]
    simp only [if_neg h]
    norm_num

/-- Witness for C3 (amended): both branches at concrete carts. -/
theorem C3_first_order_discount_witness :
    ((computeCheckoutState [⟨20, 1, 0⟩] 0 none none).discountPercent = 25 ∧
     (computeCheckoutState [⟨20, 1, 0⟩] 0 none none).discountedTotal =
       round2 (cartTotalOf [⟨20, 1, 0⟩] * (75/100)) ∧
     (computeTotals [⟨20, 1, 0⟩] 0 none).discountPercent = 25 ∧
     (computeTotals [⟨20, 1, 0⟩] 0 none).discountedTotal =
       round2 (cartTotalOf [⟨20, 1, 0⟩] * (75/100))) ∧
    ((computeCheckoutState [⟨20, 1, 0⟩] 1 none none).discountPercent = 0 ∧
     (computeCheckoutState [⟨20, 1, 0⟩] 1 none none).discountedTotal =
       round2 (cartTotalOf [⟨20, 1, 0⟩]) ∧
     (computeTotals [⟨20, 1, 0⟩] 1 none).discountPercent = 0 ∧
     (computeTotals [⟨20, 1, 0⟩] 1 none).discountedTotal =
       cartTotalOf [⟨20, 1, 0⟩]) :=
  ⟨(C3_first_order_discount [⟨20, 1, 0⟩] 0 none none).1 rfl,
   (C3_first_order_discount [⟨20, 1, 0⟩] 1 none none).2 (by norm_num)⟩

/-- C4, counterexample — the claim (with the spec) has `refund_rejected` set
only against a `completed` order; but resolving a report as `rejected` on an
order still in `processing` also sets `refund_rejected`. -/
theorem C4_counterexample :
    orderStatusAfterResolve "rejected" "processing" = some "refund_rejected" ∧
    jsToLower "processing" ≠ "completed" := by
  constructor
  · decide
  · decide

/-- C4, amended — approvals on a not-yet-completed order cancel it;
against a completed order `approved_full ↦ refund_full`,
`approved_partial ↦ refund_partial`, `rejected ↦ refund_rejected`;
`refund_full`/`refund_partial` indeed arise only against a completed order,
but `rejected` yields `refund_rejected` regardless of the order's status. -/
theorem C4_resolve_status_transitions (st cur : String) :
    ((st = "approved_full" ∨ st = "approved_partial") →
      jsToLower cur ≠ "completed" →
      orderStatusAfterResolve st cur = some "cancelled") ∧
    (jsToLower cur = "completed" →
      (st = "approved_full" →
        orderStatusAfterResolve st cur = some "refund_full") ∧
      (st = "approved_partial" →
        orderStatusAfterResolve st cur = some "refund_partial") ∧
      (st = "rejected" →
        orderStatusAfterResolve st cur = some "refund_rejected")) ∧
    (orderStatusAfterResolve st cur = some "refund_full" →
      jsToLower cur = "completed") ∧
    (orderStatusAfterResolve st cur = some "refund_partial" →
      jsToLower cur = "completed") ∧
    (st = "rejected" → orderStatusAfterResolve st cur = some "refund_rejected") := by
  unfold orderStatusAfterResolve
  simp only
  split_ifs with h1 h2 h3 h4
  · obtain ⟨ha, hb⟩ := h1
    rcases ha with ha | ha <;> simp_all
  · simp_all
  · simp_all
  · simp_all
  · simp_all

/-- Witness for C4 (amended): each transition at concrete statuses. -/
theorem C4_resolve_status_transitions_witness :
    orderStatusAfterResolve "approved_full" "processing" = some "cancelled" ∧
    orderStatusAfterResolve "approved_full" "completed" = some "refund_full" ∧
    orderStatusAfterResolve "approved_partial" "completed" = some "refund_partial" ∧
    orderStatusAfterResolve "rejected" "completed" = some "refund_rejected" :=
  ⟨(C4_resolve_status_transitions "approved_full" "processing").1
      (Or.inl rfl) (by decide),
   ((C4_resolve_status_transitions "approved_full" "completed").2.1
      (by decide)).1 rfl,
   ((C4_resolve_status_transitions "approved_partial" "completed").2.1
      (by decide)).2.1 rfl,
   (C4_resolve_status_transitions "rejected" "completed").2.2.2.2 rfl⟩

/-- C5, counterexample — the claim says `approved_full` persists the order's
total, ignoring the submitted amount; but `report.orderTotal || amount || 0`
falls back to the submitted amount when the order total is `0` (a fully
credit-covered order): with order total `0` and submitted amount `5` the
persisted amount is `5`, not the order total. -/
theorem C5_counterexample :
    resolveTargetAmount "approved_full" 0 5 = 5 ∧
    resolveTargetAmount "approved_full" 0 5 ≠ 0 := by
  constructor
  · norm_num [resolveTargetAmount]
  · norm_num [resolveTargetAmount]

/-- C5, amended — `approved_full` persists the order total whenever it is
nonzero (ignoring the submitted amount); with a zero/absent order total it
falls back to the submitted amount (then to 0); any other status, in
particular `approved_partial`, persists the submitted amount as-is. -/
theorem C5_resolve_amount (ot amt : ℚ) :
    (ot ≠ 0 → resolveTargetAmount "approved_full" ot amt = ot) ∧
    (ot = 0 → resolveTargetAmount "approved_full" ot amt =
      (if amt ≠ 0 then amt else 0)) ∧
    resolveTargetAmount "approved_partial" ot amt = amt := by
  unfold resolveTargetAmount
  refine ⟨fun h => ?_, fun h => ?_, ?_⟩
  · rw [if_pos rfl, if_pos h]
  · rw [if_pos rfl, if_neg (not_not_intro h)]
  · rw [if_neg (by decide)]

/-- Witness for C5 (amended): nonzero order total 3 with submitted amount 5,
and the partial branch. -/
theorem C5_resolve_amount_witness :
    resolveTargetAmount "approved_full" 3 5 = 3 ∧
    resolveTargetAmount "approved_partial" 3 5 = 5 :=
  ⟨(C5_resolve_amount 3 5).1 (by norm_num), (C5_resolve_amount 3 5).2.2⟩

lemma ite_nonpos_eq_max (b : ℤ) : (if b ≤ 0 then 0 else b) = max 0 b := by
  split_ifs with h
  · exact (max_eq_left h).symm
  · exact (max_eq_right (le_of_not_le h)).symm

lemma orderStatusAfterResolve_approved_isSome (st cur : String)
    (h : st = "approved_full" ∨ st = "approved_partial") :
    ∃ s, orderStatusAfterResolve st cur = some s := by
  unfold orderStatusAfterResolve
  simp only
  split_ifs <;> simp_all

/-- C6 — the bonus loyalty points granted on refund resolution equal
`max 0 ⌊⌊orderTotal·10⌋ · bonusPercent⌋` with `bonusPercent = 0.25` for
`approved_full`, `0.10` for `approved_partial` and `0` for `rejected`; they
are granted only when the user holds a membership record; in particular an
`approved_partial` refund of a completed order with `orderTotal = 15.00`
grants exactly 15 points. -/
theorem C6_refund_bonus_points :
    (∀ cur : String, ∀ t : ℚ,
      (resolveReportEffects "approved_full" cur t true).2 =
        max 0 ⌊((⌊t * 10⌋ : ℤ) : ℚ) * (25/100)⌋ ∧
      (resolveReportEffects "approved_partial" cur t true).2 =
        max 0 ⌊((⌊t * 10⌋ : ℤ) : ℚ) * (10/100)⌋ ∧
      (resolveReportEffects "rejected" cur t true).2 = 0) ∧
    (∀ st cur : String, ∀ t : ℚ,
      (resolveReportEffects st cur t false).2 = 0) ∧
    (resolveReportEffects "approved_partial" "completed" 15 true).2 = 15 := by
  refine ⟨fun cur t => ⟨?_, ?_, ?_⟩, fun st cur t => ?_, ?_⟩
  · obtain ⟨s, hs⟩ := orderStatusAfterResolve_approved_isSome
      "approved_full" cur (Or.inl rfl)
    simp only [resolveReportEffects, hs]
    norm_num
    rw [ite_nonpos_eq_max]
  · obtain ⟨s, hs⟩ := orderStatusAfterResolve_approved_isSome
      "approved_partial" cur (Or.inr rfl)
    simp only [resolveReportEffects, hs]
    norm_num
    rw [ite_nonpos_eq_max]
    simp +decide
  · rcases h : orderStatusAfterResolve "rejected" cur with _ | s
    · simp [resolveReportEffects, h]
    · simp only [resolveReportEffects, h]
      simp +decide
  · rcases h : orderStatusAfterResolve st cur with _ | s
    · simp [resolveReportEffects, h]
    · simp only [resolveReportEffects, h]
      split_ifs <;> simp_all
  · have h2 : orderStatusAfterResolve "approved_partial" "completed" =
        some "refund_partial" := by decide
    simp only [resolveReportEffects, h2]
    norm_num
    simp +decide

/-- C7, counterexample — with a `pending` status query (raw status `"0"`) and
25 s elapsed since QR generation, the claim says the flow is aborted with no
order created; the code's guard `status !== 'success' && elapsedMs <
optimisticAfterMs` does not fire past 20 s, so the order IS created. -/
theorem C7_counterexample :
    normalizeStatus (some "0") none = "pending" ∧
    normalizeStatus (some "0") none ≠ "success" ∧
    (20000 : ℤ) < 25000 ∧
    (netsConfirmFlow
      ⟨true, true, normalizeStatus (some "0") none, 25000, false, true, true⟩
      ).orderCreated = true := by
  have h : normalizeStatus (some "0") none = "pending" := by
    simp +decide [normalizeStatus, jsToNumber, jsTrim, jsToLower, jsToLowerChar,
      jsStartsWith, normalizeStatusWords, List.takeWhile, List.dropWhile,
      List.foldl, List.isPrefixOf, Char.isDigit, Char.isWhitespace]
  refine ⟨h, by rw [h]; decide, by norm_num, ?_⟩
  rw [h]
  decide

/-- C7, amended — a non-success status aborts the NETS confirm flow (no order
created, cart untouched) only while fewer than 20 s have elapsed since QR
generation; once 20 s have passed, a non-success status is optimistically
treated as success and the flow proceeds to create the order (given a valid
session, a reachable status endpoint, a non-empty cart and a successful
insert). -/
theorem C7_nets_timeout_policy (i : NetsConfirmInput) :
    (i.status ≠ "success" → i.elapsedMs < 20000 →
      netsConfirmFlow i = ⟨false, false⟩) ∧
    (i.sessionValid = true → i.statusQueryOk = true → 20000 ≤ i.elapsedMs →
      i.cartEmpty = false → i.createOrderOk = true →
      (netsConfirmFlow i).orderCreated = true) := by
  constructor
  · intro hst hel
    unfold netsConfirmFlow
    split_ifs with h1 h2 h3 <;> first | rfl | exact absurd ⟨hst, hel⟩ h3
  · intro hsv hsq hel hce hco
    unfold netsConfirmFlow
    rw [if_neg (by simp [hsv]), if_neg (by simp [hsq]),
      if_neg (fun hc => absurd hc.2 (not_lt.mpr hel)),
      if_neg (by simp [hce]), if_neg (by simp [hco])]
    split_ifs <;> rfl

/-- Witness for C7 (amended): both branches at concrete inputs — a pending
status at 5 s aborts; a pending status at 25 s still creates the order. -/
theorem C7_nets_timeout_policy_witness :
    netsConfirmFlow ⟨true, true, "pending", 5000, false, true, true⟩ =
      ⟨false, false⟩ ∧
    (netsConfirmFlow ⟨true, true, "pending", 25000, false, true, true⟩
      ).orderCreated = true :=
  ⟨(C7_nets_timeout_policy ⟨true, true, "pending", 5000, false, true, true⟩).1
      (by decide) (by norm_num),
   (C7_nets_timeout_policy ⟨true, true, "pending", 25000, false, true, true⟩).2
      rfl rfl (by norm_num) rfl rfl⟩

/-- C8 — `markUsed` transitions a credit from `available` to `used` only when
it is currently `available`, binding it to the consuming order; a second
invocation affects zero rows and leaves the row unchanged, and on a
non-available row it is a no-op. -/
theorem C8_markUsed_conditional (row : CreditRow) (o1 o2 : ℕ)
    (h : row.status = CreditStatus.available) :
    (markUsed row o1).2 = 1 ∧
    (markUsed row o1).1.status = CreditStatus.used ∧
    (markUsed row o1).1.usedOrderId = (if o1 = 0 then none else some o1) ∧
    markUsed (markUsed row o1).1 o2 = ((markUsed row o1).1, 0) ∧
    (∀ r : CreditRow, r.status ≠ CreditStatus.available →
      markUsed r o2 = (r, 0)) := by
  refine ⟨?_, ?_, ?_, ?_, fun r hr => ?_⟩ <;>
    simp [markUsed, h]
  · intro hav
    exact absurd hav hr

/-- Witness for C8: an available credit consumed by order 3, then order 4. -/
theorem C8_markUsed_conditional_witness :
    (markUsed ⟨CreditStatus.available, none⟩ 3).2 = 1 ∧
    (markUsed ⟨CreditStatus.available, none⟩ 3).1.status = CreditStatus.used ∧
    (markUsed ⟨CreditStatus.available, none⟩ 3).1.usedOrderId =
      (if 3 = 0 then none else some 3) ∧
    markUsed (markUsed ⟨CreditStatus.available, none⟩ 3).1 4 =
      ((markUsed ⟨CreditStatus.available, none⟩ 3).1, 0) ∧
    (∀ r : CreditRow, r.status ≠ CreditStatus.available →
      markUsed r 4 = (r, 0)) :=
  C8_markUsed_conditional ⟨CreditStatus.available, none⟩ 3 4 rfl

/-- C9, counterexample — the claim says the cart is cleared unconditionally
once the order row exists; in the NETS confirm flow an order created with a
failing stock decrement leaves the cart uncleared. -/
theorem C9_counterexample :
    (netsConfirmFlow ⟨true, true, "success", 0, false, true, false⟩
      ).orderCreated = true ∧
    (netsConfirmFlow ⟨true, true, "success", 0, false, true, false⟩
      ).cartCleared = false := by
  constructor <;> decide

/-- C9, amended — in the card/PayPal/Stripe flows (`persistOrder`) the cart
is cleared unconditionally once the order row exists, regardless of
side-effect outcomes; in the NETS confirm flow the cart is cleared exactly
when the post-creation stock decrements all succeed. -/
theorem C9_cart_clear_policy :
    (∀ i : PersistOrderInput, i.createOrderOk = true →
      persistOrderFlow i = ⟨true, true⟩) ∧
    (∀ j : NetsConfirmInput, (netsConfirmFlow j).orderCreated = true →
      (netsConfirmFlow j).cartCleared = j.stockDecrementOk) := by
  constructor
  · intro i h
    unfold persistOrderFlow
    rw [if_neg (by simp [h])]
  · intro j h
    unfold netsConfirmFlow at h ⊢
    split_ifs at h ⊢ with h1 h2 h3 h4 h5 h6 <;> simp_all

/-- Witness for C9 (amended): a successful `persistOrder` run and a NETS run
whose stock decrement fails. -/
theorem C9_cart_clear_policy_witness :
    persistOrderFlow ⟨true, true, false, false, false⟩ = ⟨true, true⟩ ∧
    (netsConfirmFlow ⟨true, true, "success", 0, false, true, false⟩
      ).cartCleared =
      (⟨true, true, "success", 0, false, true, false⟩ :
        NetsConfirmInput).stockDecrementOk :=
  ⟨C9_cart_clear_policy.1 ⟨true, true, false, false, false⟩ rfl,
   C9_cart_clear_policy.2 ⟨true, true, "success", 0, false, true, false⟩
     (by decide)⟩

/-- C10 — `OrderModel.createOrder` with a non-array or empty `items` list
still inserts and commits the order row and returns its `orderId`: the new
state holds the order row with no order lines. -/
theorem C10_createOrder_empty_items (db : OrdersDb) (d : OrderData) :
    (createOrder db d none).2 = db.nextId ∧
    (createOrder db d none).1.orders =
      db.orders ++ [orderRowOf db.nextId d] ∧
    (createOrder db d none).1.orderItems = db.orderItems ∧
    (createOrder db d (some [])).2 = db.nextId ∧
    (createOrder db d (some [])).1.orders =
      db.orders ++ [orderRowOf db.nextId d] ∧
    (createOrder db d (some [])).1.orderItems = db.orderItems := by
  refine ⟨rfl, rfl, ?_, rfl, rfl, ?_⟩ <;>
    simp [createOrder]

end Lemmas

end Supermarket
